import Mathlib

set_option maxHeartbeats 1000000

/-!
Shallow embedding of src/views/nodes/viewNode.ts.

The file models three parts of the source:
first the delegation logic of the abstract ViewNode class (the splatted flag,
the structural parent link, getParent and triggerChange), then the structural
capability probes, and finally the subscription lifecycle of
SubscribeableViewNode (ensureSubscription, unsubscribe, dispose, the
canSubscribe setter, onVisibilityChanged and onNodeStateChanged).

Asynchronous methods are modelled run to completion: each entry point is a
function from the node state to the state it leaves behind, a flag telling
whether it returned normally or raised, and the trace of observable effects
(subscribe invocations, disposals, triggerChange and hook invocations) it
produced, matching the single-logical-thread model of the host.
-/

/-- Tree node restricted to the fields ViewNode.getParent and
ViewNode.triggerChange read: the protected splatted flag and the optional
structural parent from the constructor. A root node has no parent. -/
inductive ViewNode where
  | root (splatted : Bool)
  | child (splatted : Bool) (parent : ViewNode)
deriving DecidableEq, Repr

/-- Accessor for the splatted flag of either constructor. -/
def ViewNode.splatted : ViewNode → Bool
  | .root s => s
  | .child s _ => s

/-- Accessor for the structural parent link. -/
def ViewNode.parent : ViewNode → Option ViewNode
  | .root _ => none
  | .child _ p => some p

/-- ViewNode.getParent: when the parent exists and is splatted, recurse on the
grandparent chain; otherwise return the parent (none at the root). -/
def ViewNode.getParent : ViewNode → Option ViewNode
  | .root _ => none
  | .child _ p => if p.splatted then p.getParent else some p

/-- ViewNode.triggerChange modelled by its effect trace: the list of
(target, reset, force) argument triples of the view.refreshNode calls the
invocation produces. A splatted node with a parent delegates to the parent;
every other node asks the view to refresh itself. -/
def ViewNode.triggerChange : ViewNode → Bool → Bool → List (ViewNode × Bool × Bool)
  | .root s, reset, force => [(.root s, reset, force)]
  | .child s p, reset, force =>
      if s then p.triggerChange reset force else [(.child s p, reset, force)]

/-- Chain builder: splatChain 0 t = t, and splatChain (n+1) t is a splatted
node whose structural parent is splatChain n t. -/
def splatChain : Nat → ViewNode → ViewNode
  | 0, t => t
  | n + 1, t => .child true (splatChain n t)

/-- Chain of n+1 splatted nodes that exhausts at the root: every ancestor is
splatted and the topmost has no parent. -/
def splatToRoot : Nat → ViewNode
  | 0 => .root true
  | n + 1 => .child true (splatToRoot n)

theorem getParent_splatChain (t : ViewNode) (ht : t.splatted = false) :
    ∀ N s, (ViewNode.child s (splatChain N t)).getParent = some t := by
  intro N
  induction N with
  | zero =>
      intro s
      simp [splatChain, ViewNode.getParent, ht]
  | succ n ih =>
      intro s
      simp only [splatChain, ViewNode.getParent, ViewNode.splatted, if_true]
      exact ih true

theorem getParent_splatToRoot :
    ∀ N s, (ViewNode.child s (splatToRoot N)).getParent = none := by
  intro N
  induction N with
  | zero =>
      intro s
      simp [splatToRoot, ViewNode.getParent, ViewNode.splatted]
  | succ n ih =>
      intro s
      simp only [splatToRoot, ViewNode.getParent, ViewNode.splatted, if_true]
      exact ih true

theorem triggerChange_splatChain (t : ViewNode) (ht : t.splatted = false)
    (reset force : Bool) :
    ∀ k, (ViewNode.child true (splatChain k t)).triggerChange reset force
      = [(t, reset, force)] := by
  intro k
  induction k with
  | zero =>
      cases t with
      | root s =>
          simp [ViewNode.splatted] at ht
          simp [splatChain, ViewNode.triggerChange, ht]
      | child s p =>
          simp [ViewNode.splatted] at ht
          simp [splatChain, ViewNode.triggerChange, ht]
  | succ n ih =>
      simp only [splatChain, ViewNode.triggerChange, if_true]
      exact ih

/-- C1: at the bottom of a chain of N splatted ancestors topped by one
non-splatted node t, getParent returns exactly t; when instead every ancestor
up to the root is splatted, getParent returns none; and triggerChange issued
on any splatted node of the chain that has a parent (the node above k lower
splatted links, for k up to N, a splatted bottom included) performs no local
refresh and produces exactly one refreshNode call, targeted at t. -/
theorem c1_delegation (N : Nat) (t : ViewNode) (s reset force : Bool)
    (ht : t.splatted = false) :
    (ViewNode.child s (splatChain N t)).getParent = some t ∧
    (ViewNode.child s (splatToRoot N)).getParent = none ∧
    (∀ k, k ≤ N →
      (ViewNode.child true (splatChain k t)).triggerChange reset force
        = [(t, reset, force)]) := by
  refine ⟨getParent_splatChain t ht N s, getParent_splatToRoot N s, ?_⟩
  intro k _
  exact triggerChange_splatChain t ht reset force k

/-- Witness instantiating c1_delegation at N = 2 over a concrete chain. -/
theorem c1_delegation_witness :
    (ViewNode.root false).splatted = false ∧
    (ViewNode.child true (splatChain 2 (ViewNode.root false))).getParent
      = some (ViewNode.root false) ∧
    (ViewNode.child true (splatChain 2 (ViewNode.root false))).triggerChange false true
      = [(ViewNode.root false, false, true)] :=
  ⟨rfl,
   (c1_delegation 2 (ViewNode.root false) true false true rfl).1,
   (c1_delegation 2 (ViewNode.root false) true false true rfl).2.2 2 (by decide)⟩

/-- Slice of the host view read by SubscribeableViewNode: its visibility,
whether it exposes onDidChangeAutoRefresh (the viewSupportsAutoRefresh probe),
and the value of its autoRefresh flag when it does. -/
structure ViewState where
  visible : Bool
  supportsAutoRefresh : Bool
  autoRefresh : Bool
deriving DecidableEq, Repr

/-- Eventual outcome of the promise held in the subscription slot: resolution
to an optional Disposable (identified by a number), or rejection. The slot
stores the promise itself, so a pending promise is represented by the outcome
it will eventually settle with. -/
inductive SubOutcome where
  | resolved (d : Option Nat)
  | rejected
deriving DecidableEq, Repr

/-- Behaviour of the abstract subtype-supplied subscribe(): resolve to an
optional Disposable, throw synchronously, or return a rejecting promise. -/
inductive SubBehavior where
  | returns (d : Option Nat)
  | throws
  | rejects
deriving DecidableEq, Repr

/-- Observable effects of the node operations: an invocation of the abstract
subscribe(), disposal of the subscription Disposable d, disposal of the
listener registrations held in the _disposable field, an invocation of
ViewNode.triggerChange, and invocations of the optional onStateChanged and
onParentStateChanged hooks. -/
inductive Eff where
  | subscribeCall
  | disposeSub (d : Nat)
  | disposeListeners
  | triggerChange
  | hookState (s : Nat)
  | hookParentState (s : Nat)
deriving DecidableEq, Repr

/-- Mutable state of a SubscribeableViewNode: the _canSubscribe flag, the
_subscription slot (none when unsubscribed) and the recorded _state. -/
structure NodeState where
  canSubscribe : Bool
  subscription : Option SubOutcome
  state : Option Nat
deriving DecidableEq, Repr

/-- Result of running an asynchronous method to completion: ok is false when
the method raised, st is the node state left behind, and effs the trace of
observable effects produced by the run. -/
structure RunResult where
  ok : Bool
  st : NodeState
  effs : List Eff
deriving DecidableEq, Repr

/-- SubscribeableViewNode.unsubscribe: when a subscription slot is held, clear
it first, then await the stored promise and dispose the Disposable it yields,
if any. Awaiting a rejected promise raises, after the slot was cleared. -/
def unsubscribe (st : NodeState) : RunResult :=
  match st.subscription with
  | none => ⟨true, st, []⟩
  | some (.resolved none) => ⟨true, { st with subscription := none }, []⟩
  | some (.resolved (some d)) =>
      ⟨true, { st with subscription := none }, [.disposeSub d]⟩
  | some .rejected => ⟨false, { st with subscription := none }, []⟩

/-- Guard of ensureSubscription as the code writes it: not canSubscribe, or
the view not visible, or the view supports auto-refresh and it is off. -/
def shouldUnsubscribe (v : ViewState) (st : NodeState) : Bool :=
  !st.canSubscribe || !v.visible || (v.supportsAutoRefresh && !v.autoRefresh)

/-- Eligibility in the words of the spec: canSubscribe, and visible, and
auto-refresh either unsupported or enabled. -/
def eligible (v : ViewState) (st : NodeState) : Bool :=
  st.canSubscribe && v.visible && (!v.supportsAutoRefresh || v.autoRefresh)

theorem shouldUnsubscribe_eq_not_eligible (v : ViewState) (st : NodeState) :
    shouldUnsubscribe v st = !eligible v st := by
  rcases st with ⟨c, sub, sst⟩
  rcases v with ⟨vis, sup, ar⟩
  cases c <;> cases vis <;> cases sup <;> cases ar <;> rfl

/-- SubscribeableViewNode.ensureSubscription run to completion: when the guard
fires, run unsubscribe; otherwise keep an already-held slot untouched, or
record the promise of a fresh subscribe() invocation and await it. A
synchronous throw of subscribe() happens while the right hand side of the slot
assignment is evaluated, so the slot stays unassigned; a rejecting promise is
recorded in the slot before the await of it raises. -/
def ensureSubscription (v : ViewState) (b : SubBehavior) (st : NodeState) :
    RunResult :=
  if shouldUnsubscribe v st then unsubscribe st
  else if st.subscription.isSome then ⟨true, st, []⟩
  else
    match b with
    | .returns d =>
        ⟨true, { st with subscription := some (.resolved d) }, [.subscribeCall]⟩
    | .throws => ⟨false, st, [.subscribeCall]⟩
    | .rejects =>
        ⟨false, { st with subscription := some .rejected }, [.subscribeCall]⟩

/-- SubscribeableViewNode.dispose: run unsubscribe (fire-and-forget, so a
failure of it is not observed by dispose), then dispose the listener
registrations held in the _disposable field. -/
def dispose (st : NodeState) : NodeState × List Eff :=
  ((unsubscribe st).st, (unsubscribe st).effs ++ [.disposeListeners])

/-- Setter of canSubscribe: return at once when the value is unchanged;
otherwise store the value, re-run ensureSubscription (fire-and-forget), and
when the new value is true also fire triggerChange. -/
def setCanSubscribe (v : ViewState) (b : SubBehavior) (value : Bool)
    (st : NodeState) : NodeState × List Eff :=
  if st.canSubscribe == value then (st, [])
  else
    if value then
      ((ensureSubscription v b { st with canSubscribe := value }).st,
        (ensureSubscription v b { st with canSubscribe := value }).effs
          ++ [.triggerChange])
    else
      ((ensureSubscription v b { st with canSubscribe := value }).st,
        (ensureSubscription v b { st with canSubscribe := value }).effs)

/-- SubscribeableViewNode.onVisibilityChanged: re-run ensureSubscription
(fire-and-forget), then fire triggerChange exactly when the event reports the
view visible. -/
def onVisibilityChanged (v : ViewState) (b : SubBehavior) (eVisible : Bool)
    (st : NodeState) : NodeState × List Eff :=
  if eVisible then
    ((ensureSubscription v b st).st,
      (ensureSubscription v b st).effs ++ [.triggerChange])
  else ((ensureSubscription v b st).st, (ensureSubscription v b st).effs)

/-- Identity-relevant shape of a SubscribeableViewNode for event routing: its
own identity, the identity behind its structural parent link, and whether the
subtype defines the optional onStateChanged and onParentStateChanged hooks. -/
structure NodeIds where
  selfId : Nat
  parentId : Option Nat
  hasOnStateChanged : Bool
  hasOnParentStateChanged : Bool
deriving DecidableEq, Repr

/-- SubscribeableViewNode.onNodeStateChanged: an event whose element is this
node records the new collapsible state and fires the own-state hook when the
subtype defines it; otherwise an event whose element is the structural parent
fires the parent-state hook when defined; any other event does nothing. -/
def onNodeStateChanged (n : NodeIds) (eElement eState : Nat)
    (stored : Option Nat) : Option Nat × List Eff :=
  if eElement == n.selfId then
    (some eState, if n.hasOnStateChanged then [.hookState eState] else [])
  else if some eElement == n.parentId then
    (stored, if n.hasOnParentStateChanged then [.hookParentState eState] else [])
  else (stored, [])

/-- Shape of a dynamically probed member: present and a function, or present
as a non-function value; an absent member is Option.none around this type. -/
inductive DynMember where
  | func
  | plain
deriving DecidableEq, Repr

/-- Runtime shape of a node as the structural probes can observe it: presence
and shape of the members the probes and the PageableViewNode interface name. -/
structure DynNode where
  clear : Option DynMember
  canDismiss : Option DynMember
  loadMore : Option DynMember
  hasMore : Option DynMember
  limit : Option DynMember
  id : Option DynMember
deriving DecidableEq, Repr

/-- Runtime shape of a view as the structural probes can observe it. -/
structure DynView where
  onDidChangeAutoRefresh : Option DynMember
  dismissNode : Option DynMember
deriving DecidableEq, Repr

/-- Test of typeof member === function on an optional member. -/
def typeofFunction : Option DynMember → Bool
  | some .func => true
  | some .plain => false
  | none => false

/-- Modelled from the spec: Functions.is comes from src/system, which is not
part of this source tree; per the spec a structural probe returns true iff the
named member exists on the value and performs no invocation, so Functions.is
applied to a value and a member name is the presence test of that member. -/
def Functions.is : Option DynMember → Bool
  | some _ => true
  | none => false

/-- Source predicate nodeSupportsClearing: typeof node.clear === function. -/
def nodeSupportsClearing (n : DynNode) : Bool := typeofFunction n.clear

/-- Source predicate nodeSupportsConditionalDismissal: typeof node.canDismiss
=== function. -/
def nodeSupportsConditionalDismissal (n : DynNode) : Bool :=
  typeofFunction n.canDismiss

/-- Source predicate PageableViewNode.is: Functions.is applied to the node and
the member name loadMore. -/
def PageableViewNode.is (n : DynNode) : Bool := Functions.is n.loadMore

/-- Source predicate viewSupportsAutoRefresh: Functions.is applied to the view
and the member name onDidChangeAutoRefresh. -/
def viewSupportsAutoRefresh (v : DynView) : Bool :=
  Functions.is v.onDidChangeAutoRefresh

/-- Source predicate viewSupportsNodeDismissal: typeof view.dismissNode ===
function. -/
def viewSupportsNodeDismissal (v : DynView) : Bool :=
  typeofFunction v.dismissNode

theorem ensure_trigger_free (v : ViewState) (b : SubBehavior) (st : NodeState) :
    (ensureSubscription v b st).effs.count Eff.triggerChange = 0 := by
  unfold ensureSubscription unsubscribe
  split
  · split <;> simp
  · split
    · simp
    · cases b <;> simp

/-- C2: after a run of ensureSubscription that returned normally, the node
holds a subscription slot iff canSubscribe and visible and auto-refresh
unsupported-or-on held at entry; when that eligibility is false, a slot
holding a Disposable is disposed and the slot cleared, and the run is a
complete no-op when the node was already unsubscribed. -/
theorem c2_eligibility (v : ViewState) (b : SubBehavior) (st : NodeState)
    (hok : (ensureSubscription v b st).ok = true) :
    ((ensureSubscription v b st).st.subscription.isSome = eligible v st) ∧
    (eligible v st = false →
      (ensureSubscription v b st).st.subscription = none ∧
      (∀ d, st.subscription = some (.resolved (some d)) →
        (ensureSubscription v b st).effs = [.disposeSub d]) ∧
      (st.subscription = none → ensureSubscription v b st = ⟨true, st, []⟩)) := by
  have hs := shouldUnsubscribe_eq_not_eligible v st
  cases hel : eligible v st with
  | false =>
      rw [hel] at hs
      simp only [Bool.not_false] at hs
      rcases st with ⟨c, sub, sst⟩
      cases sub with
      | none => simp [ensureSubscription, hs, unsubscribe]
      | some o =>
          cases o with
          | resolved d =>
              cases d with
              | none => simp [ensureSubscription, hs, unsubscribe]
              | some d0 => simp [ensureSubscription, hs, unsubscribe]
          | rejected => simp [ensureSubscription, hs, unsubscribe] at hok
  | true =>
      rw [hel] at hs
      simp only [Bool.not_true] at hs
      rcases st with ⟨c, sub, sst⟩
      cases sub with
      | some o => simp [ensureSubscription, hs]
      | none =>
          cases b with
          | returns d => simp [ensureSubscription, hs]
          | throws => simp [ensureSubscription, hs] at hok
          | rejects => simp [ensureSubscription, hs] at hok

/-- Witness instantiating c2_eligibility on a visible auto-refresh-free view
with an unsubscribed node whose subscribe() yields Disposable 5. -/
theorem c2_eligibility_witness :
    (ensureSubscription ⟨true, false, false⟩ (.returns (some 5))
        ⟨true, none, none⟩).st.subscription.isSome
      = eligible ⟨true, false, false⟩ ⟨true, none, none⟩ :=
  (c2_eligibility ⟨true, false, false⟩ (.returns (some 5)) ⟨true, none, none⟩
    (by decide)).1

/-- C3 counterexample: an eligible unsubscribed node whose subscribe() returns
a rejecting promise leaves ensureSubscription raising, yet the slot retains
the rejected promise, and the following eligible run performs no subscribe()
invocation — against the claim that the node is left unsubscribed with no
handle retained and that subscribe() would run again. -/
theorem c3_counterexample :
    (ensureSubscription ⟨true, false, false⟩ .rejects ⟨true, none, none⟩).ok
      = false ∧
    (ensureSubscription ⟨true, false, false⟩ .rejects
        ⟨true, none, none⟩).st.subscription ≠ none ∧
    (ensureSubscription ⟨true, false, false⟩ (.returns (some 0))
        (ensureSubscription ⟨true, false, false⟩ .rejects
          ⟨true, none, none⟩).st).effs.count .subscribeCall = 0 := by
  decide

/-- C3 amended: a synchronous throw of subscribe() propagates out of
ensureSubscription and leaves the node unsubscribed with no handle, the state
unchanged, so a later eligible run invokes subscribe() again; a rejected
future also propagates, but the rejected promise stays recorded in the slot,
so a later eligible run of any behaviour returns early without invoking
subscribe() (until an unsubscribe clears the slot). -/
theorem c3_failure (v : ViewState) (st : NodeState)
    (he : eligible v st = true) (hs : st.subscription = none) :
    ensureSubscription v .throws st = ⟨false, st, [.subscribeCall]⟩ ∧
    (ensureSubscription v .rejects st).ok = false ∧
    (ensureSubscription v .rejects st).st.subscription = some .rejected ∧
    (∀ b, ensureSubscription v b (ensureSubscription v .rejects st).st
      = ⟨true, (ensureSubscription v .rejects st).st, []⟩) := by
  have hg := shouldUnsubscribe_eq_not_eligible v st
  rw [he] at hg
  simp only [Bool.not_true] at hg
  rcases st with ⟨c, sub, sst⟩
  cases hs
  have hg2 : shouldUnsubscribe v ⟨c, some .rejected, sst⟩ = false := by
    rw [shouldUnsubscribe_eq_not_eligible]
    have : eligible v ⟨c, some .rejected, sst⟩ = eligible v ⟨c, none, sst⟩ := rfl
    rw [this, he]
    rfl
  refine ⟨?_, ?_, ?_, ?_⟩
  · simp [ensureSubscription, hg]
  · simp [ensureSubscription, hg]
  · simp [ensureSubscription, hg]
  · intro b
    simp [ensureSubscription, hg, hg2]

/-- Witness instantiating c3_failure on a visible auto-refresh-free view with
an unsubscribed node. -/
theorem c3_failure_witness :
    ensureSubscription ⟨true, false, false⟩ .throws ⟨true, none, none⟩
      = ⟨false, ⟨true, none, none⟩, [.subscribeCall]⟩ :=
  (c3_failure ⟨true, false, false⟩ ⟨true, none, none⟩ (by decide) rfl).1

/-- C4 counterexample: when the subscribe() of an eligible unsubscribed node
resolves to nothing, the slot is not cleared back to Unsubscribed — it retains
the resolved promise — and the following eligible run performs no subscribe()
invocation, against the claim that subscribe() would be invoked anew. -/
theorem c4_counterexample :
    (ensureSubscription ⟨true, false, false⟩ (.returns none)
        ⟨true, none, none⟩).st.subscription ≠ none ∧
    (ensureSubscription ⟨true, false, false⟩ (.returns (some 0))
        (ensureSubscription ⟨true, false, false⟩ (.returns none)
          ⟨true, none, none⟩).st).effs.count .subscribeCall = 0 := by
  decide

/-- C4 amended: an eligible run on an empty slot records the promise of the
subscribe() invocation and awaits it, so the slot afterwards holds the
resolved outcome — also when subscribe() yields no Disposable, in which case
the node does not return to Unsubscribed and every later eligible run returns
early as a no-op instead of invoking subscribe() anew. -/
theorem c4_record (v : ViewState) (st : NodeState) (d : Option Nat)
    (he : eligible v st = true) (hs : st.subscription = none) :
    ensureSubscription v (.returns d) st
      = ⟨true, { st with subscription := some (.resolved d) }, [.subscribeCall]⟩ ∧
    (∀ b, ensureSubscription v b { st with subscription := some (.resolved d) }
      = ⟨true, { st with subscription := some (.resolved d) }, []⟩) := by
  have hg := shouldUnsubscribe_eq_not_eligible v st
  rw [he] at hg
  simp only [Bool.not_true] at hg
  rcases st with ⟨c, sub, sst⟩
  cases hs
  have hg2 : shouldUnsubscribe v ⟨c, some (.resolved d), sst⟩ = false := by
    rw [shouldUnsubscribe_eq_not_eligible]
    have : eligible v ⟨c, some (.resolved d), sst⟩ = eligible v ⟨c, none, sst⟩ := rfl
    rw [this, he]
    rfl
  refine ⟨?_, ?_⟩
  · simp [ensureSubscription, hg]
  · intro b
    simp [ensureSubscription, hg2]

/-- Witness instantiating c4_record with a subscribe() yielding Disposable 3
on a visible auto-refresh-free view. -/
theorem c4_record_witness :
    ensureSubscription ⟨true, false, false⟩ (.returns (some 3))
        ⟨true, none, none⟩
      = ⟨true, ⟨true, some (.resolved (some 3)), none⟩, [.subscribeCall]⟩ :=
  (c4_record ⟨true, false, false⟩ ⟨true, none, none⟩ (some 3) (by decide) rfl).1

/-- C5: disposing a node whose subscription slot holds a promise that yields
Disposable d clears the slot, disposes d exactly once, and disposes the
listener registrations made at construction. -/
theorem c5_teardown (st : NodeState) (d : Nat)
    (h : st.subscription = some (.resolved (some d))) :
    dispose st
      = ({ st with subscription := none }, [.disposeSub d, .disposeListeners]) ∧
    (dispose st).2.count (.disposeSub d) = 1 ∧
    (dispose st).2.count .disposeListeners = 1 := by
  rcases st with ⟨c, sub, sst⟩
  cases h
  refine ⟨?_, ?_, ?_⟩ <;> simp [dispose, unsubscribe, List.count_cons]

/-- Witness instantiating c5_teardown on a node holding Disposable 9. -/
theorem c5_teardown_witness :
    dispose ⟨true, some (.resolved (some 9)), none⟩
      = (⟨true, none, none⟩, [.disposeSub 9, .disposeListeners]) :=
  (c5_teardown ⟨true, some (.resolved (some 9)), none⟩ 9 rfl).1

/-- C6: a visibility-change event first runs ensureSubscription to completion
— a run that never itself fires triggerChange — and a visible-true event then
fires one triggerChange after it, while a visible-false event fires none. -/
theorem c6_visibility (v : ViewState) (b : SubBehavior) (st : NodeState) :
    Eff.triggerChange ∉ (ensureSubscription v b st).effs ∧
    onVisibilityChanged v b true st
      = ((ensureSubscription v b st).st,
          (ensureSubscription v b st).effs ++ [.triggerChange]) ∧
    onVisibilityChanged v b false st
      = ((ensureSubscription v b st).st, (ensureSubscription v b st).effs) ∧
    (onVisibilityChanged v b false st).2.count .triggerChange = 0 := by
  refine ⟨?_, rfl, rfl, ?_⟩
  · exact List.count_eq_zero.mp (ensure_trigger_free v b st)
  · simpa [onVisibilityChanged] using ensure_trigger_free v b st

/-- C7: a state-change event whose element is the node itself records the new
state and fires the own-state hook exactly when the subtype defines it; an
event whose element is the structural parent leaves the recorded state alone
and fires the parent hook exactly when defined; any other event changes
nothing and fires nothing. -/
theorem c7_routing (n : NodeIds) (eElement eState : Nat) (stored : Option Nat) :
    (eElement = n.selfId →
      (onNodeStateChanged n eElement eState stored).1 = some eState ∧
      (onNodeStateChanged n eElement eState stored).2
        = if n.hasOnStateChanged then [Eff.hookState eState] else []) ∧
    (eElement ≠ n.selfId → some eElement = n.parentId →
      (onNodeStateChanged n eElement eState stored).1 = stored ∧
      (onNodeStateChanged n eElement eState stored).2
        = if n.hasOnParentStateChanged then [Eff.hookParentState eState] else []) ∧
    (eElement ≠ n.selfId → some eElement ≠ n.parentId →
      onNodeStateChanged n eElement eState stored = (stored, [])) := by
  refine ⟨?_, ?_, ?_⟩
  · intro h
    simp [onNodeStateChanged, h]
  · intro h1 h2
    simp [onNodeStateChanged, beq_iff_eq, h1, h2]
  · intro h1 h2
    simp [onNodeStateChanged, beq_iff_eq, h1, h2]

/-- Witness instantiating c7_routing for a self event, a structural-parent
event and an unrelated event on the node with identity 1 and parent 2. -/
theorem c7_routing_witness :
    (onNodeStateChanged ⟨1, some 2, true, true⟩ 1 7 none).1 = some 7 ∧
    (onNodeStateChanged ⟨1, some 2, true, true⟩ 2 7 (some 4)).2
      = [.hookParentState 7] ∧
    onNodeStateChanged ⟨1, some 2, true, true⟩ 3 7 (some 4) = (some 4, []) := by
  refine ⟨((c7_routing ⟨1, some 2, true, true⟩ 1 7 none).1 rfl).1, ?_, ?_⟩
  · have h := ((c7_routing ⟨1, some 2, true, true⟩ 2 7 (some 4)).2.1
      (by decide) rfl).2
    simpa using h
  · exact (c7_routing ⟨1, some 2, true, true⟩ 3 7 (some 4)).2.2
      (by decide) (by decide)

/-- C8: while eligible, an ensureSubscription run that finds a subscription
already recorded returns early as a no-op, so two back-to-back eligible runs
starting from an unsubscribed node make exactly one subscribe() invocation and
leave a single recorded subscription behind. -/
theorem c8_idempotent (v : ViewState) (st : NodeState) (d : Option Nat)
    (he : eligible v st = true) :
    (∀ b, st.subscription.isSome = true →
      ensureSubscription v b st = ⟨true, st, []⟩) ∧
    (st.subscription = none →
      ensureSubscription v (.returns d)
          (ensureSubscription v (.returns d) st).st
        = ⟨true, (ensureSubscription v (.returns d) st).st, []⟩ ∧
      ((ensureSubscription v (.returns d) st).effs
          ++ (ensureSubscription v (.returns d)
                (ensureSubscription v (.returns d) st).st).effs).count
        .subscribeCall = 1) := by
  have hg := shouldUnsubscribe_eq_not_eligible v st
  rw [he] at hg
  simp only [Bool.not_true] at hg
  rcases st with ⟨c, sub, sst⟩
  constructor
  · intro b hsub
    cases sub with
    | none => simp at hsub
    | some o => simp [ensureSubscription, hg]
  · intro hnone
    cases hnone
    have hg2 : shouldUnsubscribe v ⟨c, some (.resolved d), sst⟩ = false := by
      rw [shouldUnsubscribe_eq_not_eligible]
      have hsame : eligible v ⟨c, some (.resolved d), sst⟩
          = eligible v ⟨c, none, sst⟩ := rfl
      rw [hsame, he]
      rfl
    constructor
    · simp [ensureSubscription, hg, hg2]
    · simp [ensureSubscription, hg, hg2]

/-- Witness instantiating c8_idempotent: the second of two eligible runs on a
visible auto-refresh-free view is a no-op. -/
theorem c8_idempotent_witness :
    ensureSubscription ⟨true, false, false⟩ (.returns (some 2))
        (ensureSubscription ⟨true, false, false⟩ (.returns (some 2))
          ⟨true, none, none⟩).st
      = ⟨true, (ensureSubscription ⟨true, false, false⟩ (.returns (some 2))
          ⟨true, none, none⟩).st, []⟩ :=
  ((c8_idempotent ⟨true, false, false⟩ ⟨true, none, none⟩ (some 2)
    (by decide)).2 rfl).1

theorem typeofFunction_eq_true (m : Option DynMember) :
    typeofFunction m = true ↔ m = some .func := by
  cases m with
  | none => simp [typeofFunction]
  | some x => cases x <;> simp [typeofFunction]

theorem functions_is_eq_isSome (m : Option DynMember) :
    Functions.is m = m.isSome := by
  cases m <;> rfl

/-- C9 counterexample: a value exposing only a loadMore member — no hasMore,
no limit, no identity — passes PageableViewNode.is, so the pageable probe does
not require the members the claim lists. -/
theorem c9_counterexample :
    PageableViewNode.is ⟨none, none, some .func, none, none, none⟩ = true ∧
    (⟨none, none, some .func, none, none, none⟩ : DynNode).hasMore = none ∧
    (⟨none, none, some .func, none, none, none⟩ : DynNode).limit = none ∧
    (⟨none, none, some .func, none, none, none⟩ : DynNode).id = none := by
  decide

/-- C9 amended: each probe returns true iff its single probed member has the
expected shape — clear, canDismiss and dismissNode present as functions,
loadMore and onDidChangeAutoRefresh merely present; the pageable probe tests
only loadMore, requiring neither hasMore nor limit nor an identity; probes are
functions of member shape alone and invoke nothing. -/
theorem c9_probes (n : DynNode) (v : DynView) :
    (nodeSupportsClearing n = true ↔ n.clear = some .func) ∧
    (nodeSupportsConditionalDismissal n = true ↔ n.canDismiss = some .func) ∧
    (PageableViewNode.is n = true ↔ n.loadMore.isSome = true) ∧
    (viewSupportsAutoRefresh v = true ↔ v.onDidChangeAutoRefresh.isSome = true) ∧
    (viewSupportsNodeDismissal v = true ↔ v.dismissNode = some .func) := by
  refine ⟨?_, ?_, ?_, ?_, ?_⟩
  · exact typeofFunction_eq_true n.clear
  · exact typeofFunction_eq_true n.canDismiss
  · simp [PageableViewNode.is, functions_is_eq_isSome]
  · simp [viewSupportsAutoRefresh, functions_is_eq_isSome]
  · exact typeofFunction_eq_true v.dismissNode

/-- C10: assigning canSubscribe its current value leaves the state untouched
and fires nothing; a false-to-true assignment re-runs ensureSubscription and
then fires one triggerChange after it; a true-to-false assignment re-runs
ensureSubscription and fires no triggerChange at all. -/
theorem c10_setter (v : ViewState) (b : SubBehavior) (st : NodeState) :
    setCanSubscribe v b st.canSubscribe st = (st, []) ∧
    (st.canSubscribe = false →
      setCanSubscribe v b true st
        = ((ensureSubscription v b { st with canSubscribe := true }).st,
            (ensureSubscription v b { st with canSubscribe := true }).effs
              ++ [.triggerChange])) ∧
    (st.canSubscribe = true →
      setCanSubscribe v b false st
        = ((ensureSubscription v b { st with canSubscribe := false }).st,
            (ensureSubscription v b { st with canSubscribe := false }).effs) ∧
      (setCanSubscribe v b false st).2.count .triggerChange = 0) := by
  refine ⟨?_, ?_, ?_⟩
  · simp [setCanSubscribe]
  · intro h
    simp [setCanSubscribe, h]
  · intro h
    refine ⟨by simp [setCanSubscribe, h], ?_⟩
    simp [setCanSubscribe, h, ensure_trigger_free]

/-- Witness instantiating c10_setter: flipping canSubscribe from false to true
on a visible auto-refresh-free view subscribes and then fires triggerChange. -/
theorem c10_setter_witness :
    setCanSubscribe ⟨true, false, false⟩ (.returns (some 1)) true
        ⟨false, none, none⟩
      = (⟨true, some (.resolved (some 1)), none⟩,
          [.subscribeCall, .triggerChange]) := by
  have h := (c10_setter ⟨true, false, false⟩ (.returns (some 1))
    ⟨false, none, none⟩).2.1 rfl
  rw [h]
  rfl
